import Mathlib

/-!
Shallow embedding of the budget/spend aggregation and projection engine of
`DailyExpenses.py` (a Streamlit personal finance tracker).  The three
append-only tables of the record store (Expenses, Income, CategoryBudgets)
are modelled as Lean lists in append order; pandas dataframe pipelines
become list filters, maps and folds; monetary values become rationals.
-/

namespace DailyExpenses

/-- A calendar date, as the `datetime` values of the source. -/
structure Date where
  year : Nat
  month : Nat
  day : Nat
deriving Repr, DecidableEq

/-- A row of the `Income` worksheet: `[Month_Year, Amount, Source, Date_Added]`. -/
structure IncomeRecord where
  month_year : String
  amount : ℚ
  source : String
  date_added : String
deriving Repr, DecidableEq

/-- A row of the `CategoryBudgets` worksheet:
`[Month_Year, Category, Planned_Amount, Date_Added]`. -/
structure BudgetAllocationRecord where
  month_year : String
  category : String
  planned_amount : ℚ
  date_added : String
deriving Repr, DecidableEq

/-- A fully parsed row of the expenses sheet after loading
(`Date` parsed to a date, `Amount` numeric). -/
structure ExpenseRecord where
  date : Date
  category : String
  description : String
  amount : ℚ
deriving Repr, DecidableEq

/-- The fixed category vocabulary (`CATEGORIES` in the source). -/
def CATEGORIES : List String :=
  ["Groceries", "Outside Food", "Lunch", "Snacks", "Petrol",
   "Trip", "Phone", "Bike", "Medical",
   "Rent", "House", "Personal", "Others", "TV/Subscriptions", "Gifts"]

/-- Income resolution for a period (`curr_sal`, lines 196-199, and
`current_salary`, lines 337-340, of the source): start from 0.0, and if the
income table has rows matching the period, take `m.iloc[-1]["Amount"]`,
the amount of the last matching row in append order. -/
def resolve_income (df_inc : List IncomeRecord) (period : String) : ℚ :=
  if df_inc.isEmpty then 0
  else
    match (df_inc.filter (fun r => r.month_year == period)).getLast? with
    | some r => r.amount
    | none => 0

/-- Embeds `income_exists` (lines 138-142 of the source): true when the income
table is nonempty and has at least one row whose `Month_Year` equals the
target plan month.  Only existence is checked, not the amount. -/
def income_exists (df_inc : List IncomeRecord) (target : String) : Bool :=
  if df_inc.isEmpty then false
  else !(df_inc.filter (fun r => r.month_year == target)).isEmpty

/-- The reminder decision (line 144 of the source):
`not income_exists and not st.session_state.get('skip_prompt', False)`. -/
def show_income_prompt (df_inc : List IncomeRecord) (target : String)
    (skip_prompt : Bool) : Bool :=
  !income_exists df_inc target && !skip_prompt

/-- Month-end projection (line 211 of the source):
`(total_spent / days_passed) * days_in_month if days_passed > 0 else 0`. -/
def project_month_end (actual_total : ℚ) (day_of_month days_in_month : Nat) : ℚ :=
  if day_of_month > 0 then actual_total / (day_of_month : ℚ) * (days_in_month : ℚ)
  else 0

/-- Zero-padding of a month index to two digits, as Python's `%m` /
`{:02d}` formatting used by the source. -/
def fmt2 (m : Nat) : String := if m < 10 then "0" ++ toString m else toString m

/-- Embeds `curr_month_str` (line 124 of the source): `today.strftime("%Y-%m")`,
the year followed by the zero-padded month. -/
def curr_month_str (today : Date) : String :=
  toString today.year ++ "-" ++ fmt2 today.month

/-- Embeds `next_month_str` (lines 126-129 of the source): `f"{year+1}-01"` in
December, otherwise `f"{year}-{month+1:02d}"`. -/
def next_month_str (today : Date) : String :=
  if today.month == 12 then toString (today.year + 1) ++ "-01"
  else toString today.year ++ "-" ++ fmt2 (today.month + 1)

/-- Embeds `target_plan_month` (lines 131-136 of the source): plan for
`next_month_str` from day 25 on, otherwise for `curr_month_str`. -/
def target_plan_month (today : Date) : String :=
  if today.day ≥ 25 then next_month_str today else curr_month_str today

/-- The calendar month following a given (year, month) pair, rolling
December of year `y` over to January of year `y + 1`. -/
def succMonth (y m : Nat) : Nat × Nat := if m = 12 then (y + 1, 1) else (y, m + 1)

/-- The Add Allocation submit handler (lines 359-364 of the source): a
`CategoryBudgets` row is appended only under the guard `amt_input > 0`;
otherwise the store is left as it is. -/
def add_cat_budget (df_cat_bud : List BudgetAllocationRecord)
    (plan_month cat_input : String) (amt_input : ℚ) (date_added : String) :
    List BudgetAllocationRecord :=
  if amt_input > 0 then df_cat_bud ++ [⟨plan_month, cat_input, amt_input, date_added⟩]
  else df_cat_bud

/-- Value lookup in a category-keyed aggregate, defaulting to 0 for an
absent category (the effect of pandas `fillna(0)` after an outer merge). -/
def lookupD (l : List (String × ℚ)) (c : String) : ℚ :=
  match l.find? (fun x => x.1 == c) with
  | some x => x.2
  | none => 0

/-- Planned-budget aggregation for a period (`curr_plan`, lines 201-204,
and `display_df`, lines 373-375, of the source): filter the
`CategoryBudgets` table to the period, then
`groupby("Category")["Planned_Amount"].sum()` — one output pair per
distinct category of the filtered rows, holding the sum of its
`Planned_Amount` values. -/
def resolve_planned_budget (df_cat_bud : List BudgetAllocationRecord)
    (period : String) : List (String × ℚ) :=
  let raw_plan := df_cat_bud.filter (fun r => r.month_year == period)
  ((raw_plan.map (fun r => r.category)).dedup).map
    (fun c => (c, ((raw_plan.filter (fun r => r.category == c)).map
      (fun r => r.planned_amount)).sum))

/-- A row of the merged plan-vs-actual frame (`merged`, lines 225-234 of
the source, after `merged["Is_Over_Budget"] = merged["Actual"] > merged["Planned"]`). -/
structure MergedRow where
  category : String
  planned : ℚ
  actual : ℚ
  is_over_budget : Bool
deriving Repr, DecidableEq

/-- The key column of a pandas outer merge on `Category`: the left frame's
keys in order, then the right frame's keys not already present. -/
def mergeKeys (curr_plan actual_grp : List (String × ℚ)) : List String :=
  curr_plan.map Prod.fst ++
    (actual_grp.map Prod.fst).filter (fun c => !((curr_plan.map Prod.fst).contains c))

/-- Plan-vs-actual merge (lines 225-234 of the source): when a plan exists,
`pd.merge(curr_plan, actual_grp, on="Category", how="outer").fillna(0)`;
when `curr_plan` is empty, the actual aggregate with a constant `Planned`
column of 0.  In both cases `Is_Over_Budget = Actual > Planned`. -/
def merge_plan_actual (curr_plan actual_grp : List (String × ℚ)) : List MergedRow :=
  let base : List (String × ℚ × ℚ) :=
    if curr_plan.isEmpty then actual_grp.map (fun ca => (ca.1, 0, ca.2))
    else (mergeKeys curr_plan actual_grp).map
      (fun c => (c, lookupD curr_plan c, lookupD actual_grp c))
  base.map (fun t => ⟨t.1, t.2.1, t.2.2, decide (t.2.1 < t.2.2)⟩)

/-- Leap-year test, as Python's `calendar.isleap`. -/
def isLeap (y : Nat) : Bool := (y % 4 == 0 && y % 100 != 0) || y % 400 == 0

/-- Number of days of a month, as `calendar.monthrange(y, m)[1]`. -/
def daysInMonth (y m : Nat) : Nat :=
  if m = 2 then (if isLeap y then 29 else 28)
  else if m = 4 ∨ m = 6 ∨ m = 9 ∨ m = 11 then 30
  else 31

/-- Embeds `first_day_curr = today.replace(day=1)` (line 302 of the source). -/
def first_day_curr (today : Date) : Date := ⟨today.year, today.month, 1⟩

/-- Subtraction of one day from a date (`- timedelta(days=1)`, line 303 of
the source), borrowing from the previous month or year when the day is 1. -/
def sub_one_day (d : Date) : Date :=
  if d.day > 1 then ⟨d.year, d.month, d.day - 1⟩
  else if d.month > 1 then ⟨d.year, d.month - 1, daysInMonth d.year (d.month - 1)⟩
  else ⟨d.year - 1, 12, 31⟩

/-- Embeds `prev_month_idx = last_month_date.month` (lines 302-304 of the source):
only the month index of the last day of the previous month is retained. -/
def prev_month_idx (today : Date) : Nat := (sub_one_day (first_day_curr today)).month

/-- Embeds `curr_df` (line 306 of the source): expenses filtered to the current
month AND the current year. -/
def curr_df (df_exp : List ExpenseRecord) (today : Date) : List ExpenseRecord :=
  df_exp.filter (fun e => e.date.month == today.month && e.date.year == today.year)

/-- Embeds `prev_df` (line 307 of the source): expenses filtered by month index
only — no year condition appears in the filter. -/
def prev_df (df_exp : List ExpenseRecord) (today : Date) : List ExpenseRecord :=
  df_exp.filter (fun e => e.date.month == prev_month_idx today)

/-- Embeds `c_total` (line 309 of the source): current-month spending total. -/
def c_total (df_exp : List ExpenseRecord) (today : Date) : ℚ :=
  ((curr_df df_exp today).map (fun e => e.amount)).sum

/-- Embeds `p_total` (line 310 of the source): previous-period spending total. -/
def p_total (df_exp : List ExpenseRecord) (today : Date) : ℚ :=
  ((prev_df df_exp today).map (fun e => e.amount)).sum

/-- Embeds `total_alloc` (lines 372-375 of the source): 0.0 when no allocation row
matches the plan month, otherwise the sum of the `Planned_Amount` column of
the per-category groupby `display_df`. -/
def total_alloc (df_cat_bud : List BudgetAllocationRecord) (plan_month : String) : ℚ :=
  if (df_cat_bud.filter (fun r => r.month_year == plan_month)).isEmpty then 0
  else ((resolve_planned_budget df_cat_bud plan_month).map Prod.snd).sum

/-- Embeds `balance = new_salary - total_alloc` (line 376 of the source):
`new_salary` is the live value of the income form's number input, not the
stored income of the selected plan month. -/
def balance (df_cat_bud : List BudgetAllocationRecord) (plan_month : String)
    (new_salary : ℚ) : ℚ :=
  new_salary - total_alloc df_cat_bud plan_month

/-- A raw row of the expenses sheet before cleaning.  The `Date` and
`Amount` cells are carried as the results of
`pd.to_datetime(..., errors="coerce")` and
`pd.to_numeric(..., errors="coerce")`: `none` is the NaT/NaN that a
malformed cell coerces to instead of raising. -/
structure RawExpenseRow where
  date : Option Date
  category : String
  description : String
  amount : Option ℚ
deriving Repr, DecidableEq

/-- Embeds `df_exp["Amount"] = pd.to_numeric(...).fillna(0.0)` (line 93 of the
source): a NaN amount becomes 0, parsed amounts stay. -/
def fillna_amounts (rows : List RawExpenseRow) : List RawExpenseRow :=
  rows.map (fun r => { r with amount := some (r.amount.getD 0) })

/-- Embeds `df_exp = df_exp.dropna(subset=["Date"])` (line 94 of the source):
rows whose date failed to parse are dropped. -/
def dropna_dates (rows : List RawExpenseRow) : List RawExpenseRow :=
  rows.filter (fun r => r.date.isSome)

/-- The expense-loading pipeline (lines 91-94 of the source).  It is a
total function: a malformed row is coerced or dropped, never an error. -/
def load_expenses (rows : List RawExpenseRow) : List RawExpenseRow :=
  dropna_dates (fillna_amounts rows)

/-- Claim C1: for every period key and snapshot of income records,
`resolve_income` returns 0 when no record matches the period, and returns
the amount of the last-appended matching record when one or more match —
never the sum, never an earlier record's amount. -/
theorem resolve_income_last_write_wins (df : List IncomeRecord) (p : String) :
    ((∀ r ∈ df, r.month_year ≠ p) → resolve_income df p = 0) ∧
    (∀ xs (r : IncomeRecord) ys, df = xs ++ r :: ys → r.month_year = p →
      (∀ s ∈ ys, s.month_year ≠ p) → resolve_income df p = r.amount) := by
  constructor
  · intro h
    unfold resolve_income
    have hfil : df.filter (fun r => r.month_year == p) = [] := by
      simp only [List.filter_eq_nil_iff]
      intro a ha
      simpa using h a ha
    rw [hfil]
    simp
  · intro xs r ys hdf hr hys
    subst hdf
    unfold resolve_income
    have hne : (xs ++ r :: ys).isEmpty = false := by
      simp [List.isEmpty]
      cases xs <;> simp
    rw [hne]
    have hfil : (xs ++ r :: ys).filter (fun s => s.month_year == p) =
        xs.filter (fun s => s.month_year == p) ++ [r] := by
      rw [List.filter_append]
      congr 1
      have hys' : ys.filter (fun s => s.month_year == p) = [] := by
        simp only [List.filter_eq_nil_iff]
        intro a ha
        simpa using hys a ha
      simp [List.filter_cons, hr, hys']
    rw [hfil, List.getLast?_concat]
    simp

/-- Witness for C1: with records (p,100) then (p,50) appended in that order,
`resolve_income` returns 50 (the last appended), not 150 and not 100. -/
theorem resolve_income_last_write_wins_witness :
    resolve_income [⟨"2024-05", 100, "Salary", "a"⟩, ⟨"2024-05", 50, "Salary", "b"⟩]
      "2024-05" = 50 :=
  (resolve_income_last_write_wins
      [⟨"2024-05", 100, "Salary", "a"⟩, ⟨"2024-05", 50, "Salary", "b"⟩] "2024-05").2
    [⟨"2024-05", 100, "Salary", "a"⟩] ⟨"2024-05", 50, "Salary", "b"⟩ [] rfl rfl
    (by intro s hs; simp at hs)

/-- Counterexample to C3 as stated: with a single stored income record of
amount 0 for the target period and the dismissal flag unset,
`resolve_income` is 0 yet the code does not prompt (the code tests record
existence, not `resolve_income = 0`). -/
theorem show_income_prompt_zero_amount_counterexample :
    resolve_income [⟨"2025-02", 0, "Salary", "2025-01-28"⟩] "2025-02" = 0 ∧
    show_income_prompt [⟨"2025-02", 0, "Salary", "2025-01-28"⟩] "2025-02" false = false := by
  constructor
  · rfl
  · rfl

/-- Claim C3 as amended: the reminder decision is true if and only if no
income record at all exists for the target period and the session dismissal
flag is not set; in particular a stored record of amount 0 for the target
period suppresses the prompt. -/
theorem show_income_prompt_iff_no_record (df : List IncomeRecord) (target : String)
    (skip : Bool) :
    show_income_prompt df target skip = true ↔
      ((∀ r ∈ df, r.month_year ≠ target) ∧ skip = false) := by
  unfold show_income_prompt income_exists
  cases df with
  | nil => simp
  | cons a l =>
    simp [List.isEmpty_iff, List.filter_eq_nil_iff]

/-- Claim C6: the projection divides only under the guard `day_of_month > 0`,
returns 0 at `day_of_month = 0`, and in particular
`project_month_end 0 0 30 = 0` and `project_month_end 300 10 30 = 900`. -/
theorem project_month_end_guarded (a : ℚ) (d n : Nat) :
    (d > 0 → project_month_end a d n = a / (d : ℚ) * (n : ℚ)) ∧
    project_month_end a 0 n = 0 ∧
    project_month_end 0 0 30 = 0 ∧
    project_month_end 300 10 30 = 900 := by
  refine ⟨fun hd => ?_, ?_, ?_, ?_⟩
  · simp [project_month_end, hd]
  · simp [project_month_end]
  · simp [project_month_end]
  · norm_num [project_month_end]

/-- Witness for C6: the guarded branch at the concrete input (300, 10, 30). -/
theorem project_month_end_guarded_witness :
    (10 > 0) ∧ project_month_end 300 10 30 = 300 / ((10 : Nat) : ℚ) * ((30 : Nat) : ℚ) :=
  ⟨by norm_num, (project_month_end_guarded 300 10 30).1 (by norm_num)⟩

/-- Claim C7: for every valid current date, `curr_month_str` is the date's
zero-padded "YYYY-MM" key (the month part has exactly two digits),
`next_month_str` is the key of the following calendar month with December
of year Y mapping to January of year Y+1, and the target planning period is
`next_month_str` exactly when the day of month is at least 25. -/
theorem period_resolver_correct (today : Date)
    (h1 : 1 ≤ today.month) (h2 : today.month ≤ 12) :
    curr_month_str today = toString today.year ++ "-" ++ fmt2 today.month ∧
    (fmt2 today.month).length = 2 ∧
    next_month_str today =
      toString (succMonth today.year today.month).1 ++ "-" ++
        fmt2 (succMonth today.year today.month).2 ∧
    (today.month = 12 → next_month_str today = toString (today.year + 1) ++ "-01") ∧
    (today.day ≥ 25 → target_plan_month today = next_month_str today) ∧
    (today.day < 25 → target_plan_month today = curr_month_str today) := by
  obtain ⟨y, m, d⟩ := today
  refine ⟨rfl, ?_, ?_, ?_, ?_, ?_⟩
  · simp only
    interval_cases m <;> rfl
  · simp only [next_month_str, succMonth]
    by_cases hm : m = 12
    · subst hm
      show toString (y + 1) ++ "-01" = toString (y + 1) ++ "-" ++ fmt2 1
      rw [String.append_assoc]
      rfl
    · simp [hm]
  · intro hm
    simp only at hm
    simp [next_month_str, hm]
  · intro hd
    simp only at hd
    simp [target_plan_month, hd]
  · intro hd
    simp only at hd
    simp [target_plan_month, Nat.not_le.mpr hd]

/-- Witness for C7 at the concrete date 2024-12-26: the next period is
"2025-01" and, the day being at least 25, it is the target plan month. -/
theorem period_resolver_correct_witness :
    next_month_str ⟨2024, 12, 26⟩ = toString (2024 + 1) ++ "-01" ∧
    target_plan_month ⟨2024, 12, 26⟩ = next_month_str ⟨2024, 12, 26⟩ := by
  have h := period_resolver_correct ⟨2024, 12, 26⟩ (by norm_num) (by norm_num)
  exact ⟨h.2.2.2.1 rfl, h.2.2.2.2.1 (by norm_num)⟩

/-- Claim C10: submitting the Add Allocation form with amount 0 appends
nothing and leaves the store unchanged; a record is appended exactly when
the entered amount is strictly positive. -/
theorem add_cat_budget_positive_guard (df : List BudgetAllocationRecord)
    (p c dt : String) (amt : ℚ) :
    add_cat_budget df p c 0 dt = df ∧
    (¬ amt > 0 → add_cat_budget df p c amt dt = df) ∧
    (amt > 0 → add_cat_budget df p c amt dt = df ++ [⟨p, c, amt, dt⟩]) := by
  refine ⟨?_, fun h => ?_, fun h => ?_⟩
  · simp [add_cat_budget]
  · simp [add_cat_budget, h]
  · simp [add_cat_budget, h]

/-- Witness for C10: with a positive amount 100 the record is appended to
the empty store. -/
theorem add_cat_budget_positive_guard_witness :
    add_cat_budget [] "2024-05" "Groceries" 100 "2024-04-28" =
      [] ++ [⟨"2024-05", "Groceries", 100, "2024-04-28"⟩] :=
  (add_cat_budget_positive_guard [] "2024-05" "Groceries" "2024-04-28" 100).2.2
    (by norm_num)

/-- Looking up the head key of a cons, or recursing. -/
theorem lookupD_cons_eq (x : String × ℚ) (l : List (String × ℚ)) (c : String) :
    lookupD (x :: l) c = if x.1 = c then x.2 else lookupD l c := by
  unfold lookupD
  by_cases h : x.1 = c
  · rw [List.find?_cons_of_pos _ (by simpa using h), if_pos h]
  · rw [List.find?_cons_of_neg _ (by simpa using h), if_neg h]

/-- A category absent from the key column looks up to the default 0. -/
theorem lookupD_eq_zero_of_not_mem (l : List (String × ℚ)) (c : String)
    (h : c ∉ l.map Prod.fst) : lookupD l c = 0 := by
  unfold lookupD
  have hn : l.find? (fun x => x.1 == c) = none := by
    rw [List.find?_eq_none]
    intro x hx
    simp only [beq_iff_eq]
    intro hxc
    exact h (List.mem_map.mpr ⟨x, hx, hxc⟩)
  rw [hn]

/-- Looking up `c` in a keyed tabulation of a function over a key list that
contains `c` returns the tabulated value. -/
theorem lookupD_map_of_mem (f : String → ℚ) (cats : List String) (c : String)
    (h : c ∈ cats) : lookupD (cats.map (fun k => (k, f k))) c = f c := by
  induction cats with
  | nil => simp at h
  | cons a t ih =>
    rw [List.map_cons, lookupD_cons_eq]
    by_cases hac : a = c
    · subst hac
      simp
    · have hct : c ∈ t := by
        rcases List.mem_cons.mp h with h1 | h1
        · exact absurd h1.symm hac
        · exact h1
      simpa [hac] using ih hct

/-- The groupby-sum aggregate, looked up at any category, equals the plain
sum of `planned_amount` over the records matching both period and
category. -/
theorem lookupD_resolve_planned_budget (df : List BudgetAllocationRecord)
    (p c : String) :
    lookupD (resolve_planned_budget df p) c =
      ((df.filter (fun r => r.month_year == p && r.category == c)).map
        (fun r => r.planned_amount)).sum := by
  have hff : df.filter (fun r => r.month_year == p && r.category == c) =
      (df.filter (fun r => r.month_year == p)).filter (fun r => r.category == c) := by
    rw [List.filter_filter]
    congr 1
    funext r
    rw [Bool.and_comm]
  rw [hff]
  unfold resolve_planned_budget
  simp only
  by_cases hc : c ∈ ((df.filter (fun r => r.month_year == p)).map
      (fun r => r.category)).dedup
  · exact lookupD_map_of_mem _ _ _ hc
  · rw [lookupD_eq_zero_of_not_mem]
    · have hfe : (df.filter (fun r => r.month_year == p)).filter
          (fun r => r.category == c) = [] := by
        rw [List.filter_eq_nil_iff]
        intro r hr
        simp only [beq_iff_eq]
        intro hrc
        exact hc (List.mem_dedup.mpr (List.mem_map.mpr ⟨r, hr, hrc⟩))
      rw [hfe]
      simp
    · rw [List.map_map]
      simpa using hc

/-- Claim C5: for every period and category, `resolve_planned_budget` sums
`planned_amount` over all allocation records sharing that (period,
category) pair, and appending a duplicate allocation for the pair adds its
amount to the aggregate instead of overwriting it. -/
theorem resolve_planned_budget_sums (df : List BudgetAllocationRecord)
    (p c : String) :
    lookupD (resolve_planned_budget df p) c =
      ((df.filter (fun r => r.month_year == p && r.category == c)).map
        (fun r => r.planned_amount)).sum ∧
    (∀ r : BudgetAllocationRecord, r.month_year = p → r.category = c →
      lookupD (resolve_planned_budget (df ++ [r]) p) c =
        lookupD (resolve_planned_budget df p) c + r.planned_amount) := by
  refine ⟨lookupD_resolve_planned_budget df p c, fun r hrp hrc => ?_⟩
  rw [lookupD_resolve_planned_budget, lookupD_resolve_planned_budget,
    List.filter_append]
  simp [hrp, hrc]

/-- Witness for C5: allocations of 200 then 300 for ("2024-05",
"Groceries") accumulate — appending the 300 row adds 300 to the aggregate
(whose value is then 500). -/
theorem resolve_planned_budget_sums_witness :
    lookupD (resolve_planned_budget
      ([⟨"2024-05", "Groceries", 200, "a"⟩] ++ [⟨"2024-05", "Groceries", 300, "b"⟩])
      "2024-05") "Groceries" =
    lookupD (resolve_planned_budget [⟨"2024-05", "Groceries", 200, "a"⟩] "2024-05")
      "Groceries" + 300 ∧
    lookupD (resolve_planned_budget
      ([⟨"2024-05", "Groceries", 200, "a"⟩] ++ [⟨"2024-05", "Groceries", 300, "b"⟩])
      "2024-05") "Groceries" = 500 := by
  refine ⟨(resolve_planned_budget_sums [⟨"2024-05", "Groceries", 200, "a"⟩]
    "2024-05" "Groceries").2 ⟨"2024-05", "Groceries", 300, "b"⟩ rfl rfl, ?_⟩
  norm_num [resolve_planned_budget, lookupD]

/-- Membership in the merged key column is membership in either input's
key column. -/
theorem mem_mergeKeys (curr_plan actual_grp : List (String × ℚ)) (c : String) :
    c ∈ mergeKeys curr_plan actual_grp ↔
      c ∈ curr_plan.map Prod.fst ∨ c ∈ actual_grp.map Prod.fst := by
  unfold mergeKeys
  simp only [List.mem_append, List.mem_filter, Bool.not_eq_true']
  constructor
  · rintro (h | ⟨h, _⟩)
    · exact Or.inl h
    · exact Or.inr h
  · rintro (h | h)
    · exact Or.inl h
    · by_cases hp : c ∈ curr_plan.map Prod.fst
      · exact Or.inl hp
      · refine Or.inr ⟨h, ?_⟩
        rw [Bool.eq_false_iff]
        intro hcon
        exact hp (List.elem_iff.mp hcon)

/-- The merge with an empty plan: the actual aggregate, zero-filled on the
planned side. -/
theorem merge_plan_actual_nil (ag : List (String × ℚ)) :
    merge_plan_actual [] ag =
      ag.map (fun ca => ⟨ca.1, 0, ca.2, decide ((0 : ℚ) < ca.2)⟩) := by
  unfold merge_plan_actual
  simp [List.map_map]

/-- The merge with a nonempty plan: one row per merged key, with
zero-defaulting lookups on both sides. -/
theorem merge_plan_actual_cons (x : String × ℚ) (cp ag : List (String × ℚ)) :
    merge_plan_actual (x :: cp) ag =
      (mergeKeys (x :: cp) ag).map (fun c =>
        ⟨c, lookupD (x :: cp) c, lookupD ag c,
          decide (lookupD (x :: cp) c < lookupD ag c)⟩) := by
  unfold merge_plan_actual
  simp [List.map_map]

/-- Claim C4: for every planned and actual aggregate, the merged output has
a row for exactly the categories in the union of the two key sets, the side
missing a category contributes 0 to its row, and `is_over_budget` holds
exactly when actual strictly exceeds planned. -/
theorem merge_plan_actual_outer_join (curr_plan actual_grp : List (String × ℚ)) :
    (∀ c : String,
      (∃ row ∈ merge_plan_actual curr_plan actual_grp, row.category = c) ↔
        (c ∈ curr_plan.map Prod.fst ∨ c ∈ actual_grp.map Prod.fst)) ∧
    (∀ row ∈ merge_plan_actual curr_plan actual_grp,
      (row.category ∉ curr_plan.map Prod.fst → row.planned = 0) ∧
      (row.category ∉ actual_grp.map Prod.fst → row.actual = 0) ∧
      (row.is_over_budget = true ↔ row.planned < row.actual)) := by
  cases curr_plan with
  | nil =>
    rw [merge_plan_actual_nil]
    constructor
    · intro c
      simp only [List.map_nil, List.not_mem_nil, false_or]
      constructor
      · rintro ⟨row, hrow, hc⟩
        rcases List.mem_map.mp hrow with ⟨ca, hca, rfl⟩
        exact List.mem_map.mpr ⟨ca, hca, hc⟩
      · intro hc
        rcases List.mem_map.mp hc with ⟨ca, hca, hc1⟩
        exact ⟨⟨ca.1, 0, ca.2, decide ((0 : ℚ) < ca.2)⟩,
          List.mem_map.mpr ⟨ca, hca, rfl⟩, hc1⟩
    · intro row hrow
      rcases List.mem_map.mp hrow with ⟨ca, hca, rfl⟩
      refine ⟨fun _ => rfl, fun hno => ?_, ?_⟩
      · exact absurd (List.mem_map.mpr ⟨ca, hca, rfl⟩) hno
      · exact decide_eq_true_iff
  | cons x cp =>
    rw [merge_plan_actual_cons]
    constructor
    · intro c
      constructor
      · rintro ⟨row, hrow, hc⟩
        rcases List.mem_map.mp hrow with ⟨k, hk, rfl⟩
        exact (mem_mergeKeys (x :: cp) actual_grp c).mp (hc ▸ hk)
      · intro hc
        have hk : c ∈ mergeKeys (x :: cp) actual_grp :=
          (mem_mergeKeys (x :: cp) actual_grp c).mpr hc
        exact ⟨⟨c, lookupD (x :: cp) c, lookupD actual_grp c,
          decide (lookupD (x :: cp) c < lookupD actual_grp c)⟩,
          List.mem_map.mpr ⟨c, hk, rfl⟩, rfl⟩
    · intro row hrow
      rcases List.mem_map.mp hrow with ⟨k, hk, rfl⟩
      exact ⟨fun hno => lookupD_eq_zero_of_not_mem _ _ hno,
        fun hno => lookupD_eq_zero_of_not_mem _ _ hno, decide_eq_true_iff⟩

/-- Witness for C4: merging plan {Groceries: 200} with actuals
{Petrol: 50} keeps the actual-only category Petrol. -/
theorem merge_plan_actual_outer_join_witness :
    ∃ row ∈ merge_plan_actual [("Groceries", (200 : ℚ))] [("Petrol", (50 : ℚ))],
      row.category = "Petrol" :=
  ((merge_plan_actual_outer_join [("Groceries", 200)] [("Petrol", 50)]).1 "Petrol").mpr
    (Or.inr (by simp))

/-- Claim C2 exhibit (code bug): on 2025-01-20 the derived previous month
index is 12, as the claim says, but the previous-period filter keys on the
month index alone, so with one December 2023 expense of 100 and one
December 2024 expense of 50 the code's previous total is 150, while the
claim requires exactly the December 2024 expenses — total 50. -/
theorem prev_month_filter_ignores_year :
    prev_month_idx ⟨2025, 1, 20⟩ = 12 ∧
    p_total
      [⟨⟨2023, 12, 15⟩, "Groceries", "old", 100⟩,
       ⟨⟨2024, 12, 10⟩, "Groceries", "new", 50⟩] ⟨2025, 1, 20⟩ = 150 ∧
    ((([⟨⟨2023, 12, 15⟩, "Groceries", "old", (100 : ℚ)⟩,
        ⟨⟨2024, 12, 10⟩, "Groceries", "new", 50⟩] : List ExpenseRecord).filter
      (fun e => e.date.month == 12 && e.date.year == 2024)).map
      (fun e => e.amount)).sum = 50 := by
  refine ⟨rfl, ?_, ?_⟩ <;>
    norm_num [p_total, prev_df, prev_month_idx, sub_one_day, first_day_curr,
      daysInMonth, isLeap]

/-- Claim C8 exhibit (code bug): with a stored income of 1000 for
"2024-05", a single allocation of 300, and a live income field edited to
500 but not saved, the code's remaining-to-allocate balance is 200,
whereas the claim requires stored income minus total allocation = 700. -/
theorem balance_uses_live_form_field :
    balance [⟨"2024-05", "Groceries", 300, "d"⟩] "2024-05" 500 = 200 ∧
    resolve_income [⟨"2024-05", 1000, "Salary", "d"⟩] "2024-05" -
      total_alloc [⟨"2024-05", "Groceries", 300, "d"⟩] "2024-05" = 700 := by
  constructor <;>
    norm_num [balance, total_alloc, resolve_planned_budget, resolve_income, lookupD]

/-- Claim C9: loading keeps every row whose amount failed to parse (its
amount coerced to 0) as long as its date parsed, drops exactly the rows
whose date failed to parse, and every surviving row has a parsed date and a
numeric amount; the pipeline is a total function — no malformed row
propagates an error. -/
theorem load_expenses_recovers_malformed (rows : List RawExpenseRow) :
    load_expenses rows = (rows.filter (fun r => r.date.isSome)).map
      (fun r => { r with amount := some (r.amount.getD 0) }) ∧
    (∀ r ∈ rows, r.amount = none → r.date.isSome →
      { r with amount := some 0 } ∈ load_expenses rows) ∧
    (∀ r ∈ load_expenses rows, r.date ≠ none ∧ r.amount ≠ none) := by
  have hmain : load_expenses rows = (rows.filter (fun r => r.date.isSome)).map
      (fun r => { r with amount := some (r.amount.getD 0) }) := by
    unfold load_expenses dropna_dates fillna_amounts
    rw [List.filter_map]
    rfl
  refine ⟨hmain, fun r hr hna hds => ?_, fun r hr => ?_⟩
  · rw [hmain]
    refine List.mem_map.mpr ⟨r, List.mem_filter.mpr ⟨hr, hds⟩, ?_⟩
    rw [hna]
    rfl
  · rw [hmain] at hr
    rcases List.mem_map.mp hr with ⟨s, hs, rfl⟩
    have hds : s.date.isSome := (List.mem_filter.mp hs).2
    exact ⟨by simpa [Option.isSome_iff_ne_none] using hds, by simp⟩

/-- Witness for C9: a row with an unparseable amount and a good date
survives loading with amount 0. -/
theorem load_expenses_recovers_malformed_witness :
    (⟨some ⟨2024, 5, 3⟩, "Groceries", "typo", some 0⟩ : RawExpenseRow) ∈
      load_expenses [⟨some ⟨2024, 5, 3⟩, "Groceries", "typo", none⟩] :=
  (load_expenses_recovers_malformed
      [⟨some ⟨2024, 5, 3⟩, "Groceries", "typo", none⟩]).2.1
    ⟨some ⟨2024, 5, 3⟩, "Groceries", "typo", none⟩
    (List.mem_singleton.mpr rfl) rfl rfl

/-- Witness for the amended C3: with an empty income table and the
dismissal flag unset, the prompt is shown. -/
theorem show_income_prompt_iff_no_record_witness :
    show_income_prompt [] "2025-02" false = true :=
  (show_income_prompt_iff_no_record [] "2025-02" false).mpr
    ⟨fun r hr => absurd hr (List.not_mem_nil r), rfl⟩

end DailyExpenses
